import Mathlib

/-!
Verification development for the fairops metric/parameter interception and
hierarchical storage engine (`fairops/mlops/autolog.py`).

Python dicts (3.7+) are insertion-ordered; we model every dict as an
association list `List (K × V)` with Python assignment semantics
(`pinsert`: update in place if the key exists, else append) and Python
lookup/membership (`plookup`).  `defaultdict` intermediate levels are
modelled by `getD` of the empty list, matching the implicit creation that
happens on indexed assignment.  Machine floats are modelled as `ℚ`;
timestamps and steps as `Int` (a metric's `step` is `Option Int` because
Python stores `None` as a dict key when no step is supplied).
-/

set_option maxRecDepth 4000

namespace Fairops

/-- Python dict lookup `d[k]` / `d.get(k)`: first binding whose key equals `k`. -/
def plookup {K V : Type} [DecidableEq K] (k : K) : List (K × V) → Option V
  | [] => none
  | (k', v) :: rest => if k' = k then some v else plookup k rest

/-- Python dict assignment `d[k] = v`: replace in place if present, else append. -/
def pinsert {K V : Type} [DecidableEq K] (k : K) (v : V) : List (K × V) → List (K × V)
  | [] => [(k, v)]
  | (k', v') :: rest => if k' = k then (k, v) :: rest else (k', v') :: pinsert k v rest

@[simp] theorem plookup_nil {K V : Type} [DecidableEq K] (k : K) :
    plookup k ([] : List (K × V)) = none := rfl

@[simp] theorem plookup_cons {K V : Type} [DecidableEq K] (k k' : K) (v : V) (rest : List (K × V)) :
    plookup k ((k', v) :: rest) = if k' = k then some v else plookup k rest := rfl

@[simp] theorem plookup_pinsert_self {K V : Type} [DecidableEq K] (k : K) (v : V)
    (d : List (K × V)) : plookup k (pinsert k v d) = some v := by
  induction d with
  | nil => simp [pinsert]
  | cons hd tl ih =>
    obtain ⟨k', v'⟩ := hd
    by_cases h : k' = k <;> simp [pinsert, h, ih]

theorem plookup_pinsert_ne {K V : Type} [DecidableEq K] (k k₀ : K) (v : V)
    (d : List (K × V)) (hne : k₀ ≠ k) : plookup k (pinsert k₀ v d) = plookup k d := by
  induction d with
  | nil => simp [pinsert, hne]
  | cons hd tl ih =>
    obtain ⟨k', v'⟩ := hd
    by_cases h : k' = k₀ <;> by_cases h2 : k' = k <;>
      simp_all [pinsert]

/-- One logged metric observation (`LoggedMetric` after `__init__` has run:
coordinates already resolved against the active run, timestamp already
defaulted). `step` is `Option Int`: Python keeps `None` when no step is given. -/
structure LoggedMetric where
  key : String
  value : ℚ
  step : Option Int
  timestamp : Int
  run_id : String
  experiment_id : String
deriving DecidableEq, Repr

/-- One logged parameter assignment (`LoggedParam` after construction:
`run_id`/`experiment_id` always taken from the active run). -/
structure LoggedParam where
  key : String
  value : ℚ
  run_id : String
  experiment_id : String
deriving DecidableEq, Repr

/-- `{step -> LoggedMetric}` (innermost level of `LoggedMetrics.metrics`). -/
abbrev StepDict := List (Option Int × LoggedMetric)
/-- `{key -> {step -> LoggedMetric}}`. -/
abbrev KeyDict := List (String × StepDict)
/-- `{run_id -> {key -> {step -> LoggedMetric}}}`. -/
abbrev RunDict := List (String × KeyDict)
/-- `LoggedMetrics.metrics`: `{experiment_id -> {run_id -> {key -> {step -> LoggedMetric}}}}`. -/
abbrev MetricsStore := List (String × RunDict)

instance : DecidableEq StepDict := inferInstance

instance : DecidableEq KeyDict := inferInstance

instance : DecidableEq RunDict := inferInstance

instance : DecidableEq MetricsStore := inferInstance

/-- `LoggedMetrics.add_metric`: nested defaultdict indexing followed by
assignment at the record's four-tuple address. -/
def add_metric (m : LoggedMetric) (s : MetricsStore) : MetricsStore :=
  let rd := (plookup m.experiment_id s).getD []
  let kd := (plookup m.run_id rd).getD []
  let sd := (plookup m.key kd).getD []
  pinsert m.experiment_id (pinsert m.run_id (pinsert m.key (pinsert m.step m sd) kd) rd) s

/-- Result of `LoggedMetrics.get_metrics`: depending on which supplied
coordinates are truthy and present, the Python function returns the whole
store, a sub-dict at some level, the single stored record, or `[]`. -/
inductive GetMetricsResult where
  | fullStore (d : MetricsStore)
  | runs (d : RunDict)
  | keys (d : KeyDict)
  | steps (d : StepDict)
  | single (m : LoggedMetric)
  | emptyList
deriving DecidableEq, Repr

/-- `coord and coord in d` followed by `d[coord]`: a coordinate filters only
when it is truthy (Python: a non-`None`, non-empty string) and present. -/
def truthyLookup {V : Type} (o : Option String) (d : List (String × V)) : Option V :=
  match o with
  | none => none
  | some s => if s = "" then none else plookup s d

/-- `LoggedMetrics.get_metrics(experiment_id, run_id, key, step)`, with the
source's cascade: each `if coord and coord in dict` guard that fails falls
through to returning the enclosing dict. -/
def get_metrics (s : MetricsStore) (experiment_id run_id key : Option String)
    (step : Option Int) : GetMetricsResult :=
  match truthyLookup experiment_id s with
  | none => .fullStore s
  | some rd =>
    match truthyLookup run_id rd with
    | none => .runs rd
    | some kd =>
      match truthyLookup key kd with
      | none => .keys kd
      | some sd =>
        match step with
        | none => .steps sd
        | some st =>
          match plookup (some st) sd with
          | some m => .single m
          | none => .emptyList

/-- One `{"step": ..., "value": ..., "timestamp": ...}` leaf of the nested
metrics export document. -/
structure StepEntry where
  step : Option Int
  value : ℚ
  timestamp : Int
deriving DecidableEq, Repr

/-- One `{"key": ..., "steps": [...]}` element of the nested metrics export. -/
structure MetricEntry where
  key : String
  steps : List StepEntry
deriving DecidableEq, Repr

/-- One `{"run_id": ..., "metrics": [...]}` element of the nested metrics export. -/
structure RunEntry where
  run_id : String
  metrics : List MetricEntry
deriving DecidableEq, Repr

/-- One `{"experiment_id": ..., "runs": [...]}` element of the nested metrics export. -/
structure ExpEntry where
  experiment_id : String
  runs : List RunEntry
deriving DecidableEq, Repr

/-- `LoggedMetrics.export_to_dict`: the nested comprehension preserving the
store's hierarchy and iteration order. -/
def LoggedMetrics.export_to_dict (s : MetricsStore) : List ExpEntry :=
  s.map fun p =>
    { experiment_id := p.1
      runs := p.2.map fun q =>
        { run_id := q.1
          metrics := q.2.map fun t =>
            { key := t.1
              steps := t.2.map fun u =>
                { step := u.1, value := u.2.value, timestamp := u.2.timestamp } } } }

/-- One row of the dataframe built by `LoggedMetrics.export_to_dataframe`. -/
structure MetricRow where
  experiment_id : String
  run_id : String
  key : String
  step : Option Int
  value : ℚ
  timestamp : Int
deriving DecidableEq, Repr

/-- `LoggedMetrics.export_to_dataframe`: one row per leaf of the nested
store, in the store's iteration order (the list of dicts fed to
`pd.DataFrame`). -/
def LoggedMetrics.export_to_dataframe (s : MetricsStore) : List MetricRow :=
  s.flatMap fun p =>
    p.2.flatMap fun q =>
      q.2.flatMap fun t =>
        t.2.map fun u =>
          { experiment_id := p.1, run_id := q.1, key := t.1,
            step := u.1, value := u.2.value, timestamp := u.2.timestamp }

instance {E A : Type} [DecidableEq E] [DecidableEq A] : DecidableEq (Except E A) := fun a b =>
  match a, b with
  | .ok x, .ok y =>
    if h : x = y then .isTrue (congrArg Except.ok h)
    else .isFalse fun hh => h (Except.ok.inj hh)
  | .ok _, .error _ => .isFalse fun hh => Except.noConfusion hh
  | .error _, .ok _ => .isFalse fun hh => Except.noConfusion hh
  | .error x, .error y =>
    if h : x = y then .isTrue (congrArg Except.error h)
    else .isFalse fun hh => h (Except.error.inj hh)

/-- Python exceptions that the modelled paths can raise. -/
inductive PyErr where
  | typeError
  | attributeError
  | valueError (msg : String)
  | exception (msg : String)
  | uploadFailure
deriving DecidableEq, Repr

/-- The list comprehension `[m.value for m in self.get_metrics(...)]` inside
`aggregate`, applied to whatever object `get_metrics` returned: iterating a
non-empty dict yields its keys (strings or ints), whose `.value` attribute
access raises `AttributeError`; a bare `LoggedMetric` is not iterable
(`TypeError`); an empty dict or the `[]` default yields no elements. -/
def iterValues : GetMetricsResult → Except PyErr (List ℚ)
  | .fullStore d => if d = [] then .ok [] else .error .attributeError
  | .runs d => if d = [] then .ok [] else .error .attributeError
  | .keys d => if d = [] then .ok [] else .error .attributeError
  | .steps d => if d = [] then .ok [] else .error .attributeError
  | .single _ => .error .typeError
  | .emptyList => .ok []

/-- `LoggedMetrics.aggregate(experiment_id, run_id, key, step, method)`. -/
def aggregate (s : MetricsStore) (experiment_id run_id key : String) (step : Int)
    (method : String) : Except PyErr (Option ℚ) :=
  match iterValues (get_metrics s (some experiment_id) (some run_id) (some key) (some step)) with
  | .error e => .error e
  | .ok [] => .ok none
  | .ok (v :: vs) =>
    if method = "mean" then .ok (some ((v :: vs).sum / ((v :: vs).length : ℚ)))
    else if method = "max" then .ok (some (vs.foldl max v))
    else if method = "min" then .ok (some (vs.foldl min v))
    else .error (.valueError ("Unsupported aggregation method: " ++ method))

/-- `{key -> LoggedParam}` (innermost level of `LoggedParams.params`). -/
abbrev PKeyDict := List (String × LoggedParam)
/-- `{run_id -> {key -> LoggedParam}}`. -/
abbrev PRunDict := List (String × PKeyDict)
/-- `LoggedParams.params`: `{experiment_id -> {run_id -> {key -> LoggedParam}}}`. -/
abbrev ParamsStore := List (String × PRunDict)

instance : DecidableEq PRunDict := inferInstance

instance : DecidableEq ParamsStore := inferInstance

/-- `LoggedParams.add_param`. -/
def add_param (p : LoggedParam) (s : ParamsStore) : ParamsStore :=
  let rd := (plookup p.experiment_id s).getD []
  let kd := (plookup p.run_id rd).getD []
  pinsert p.experiment_id (pinsert p.run_id (pinsert p.key p kd) rd) s

/-- Result of `LoggedParams.get_params`. -/
inductive GetParamsResult where
  | fullStore (d : ParamsStore)
  | runs (d : PRunDict)
  | keys (d : PKeyDict)
  | single (p : LoggedParam)
deriving DecidableEq, Repr

/-- `LoggedParams.get_params(experiment_id, run_id, key)`, same cascade of
`if coord and coord in dict` guards as `get_metrics`. -/
def get_params (s : ParamsStore) (experiment_id run_id key : Option String) : GetParamsResult :=
  match truthyLookup experiment_id s with
  | none => .fullStore s
  | some rd =>
    match truthyLookup run_id rd with
    | none => .runs rd
    | some kd =>
      match truthyLookup key kd with
      | none => .keys kd
      | some p => .single p

/-- One `{"key": ..., "value": ...}` element of the nested params export. -/
structure ParamKV where
  key : String
  value : ℚ
deriving DecidableEq, Repr

/-- One `{"run_id": ..., "parameters": [...]}` element of the nested params export. -/
structure ParamRunEntry where
  run_id : String
  parameters : List ParamKV
deriving DecidableEq, Repr

/-- One `{"experiment_id": ..., "runs": [...]}` element of the nested params export. -/
structure ParamExpEntry where
  experiment_id : String
  runs : List ParamRunEntry
deriving DecidableEq, Repr

/-- `LoggedParams.export_to_dict`. -/
def LoggedParams.export_to_dict (s : ParamsStore) : List ParamExpEntry :=
  s.map fun p =>
    { experiment_id := p.1
      runs := p.2.map fun q =>
        { run_id := q.1
          parameters := q.2.map fun t => { key := t.1, value := t.2.value } } }

/-- One `{experiment_id, run_id, params, metrics}` entry of
`AutoLogger.export_logs_to_dict`. -/
structure CombinedEntry where
  experiment_id : String
  run_id : String
  params : List ParamKV
  metrics : List MetricEntry
deriving DecidableEq, Repr

/-- The `params_lookup` dict comprehension inside `export_logs_to_dict`:
`{experiment_id -> {run_id -> parameters}}` built from the params export. -/
def params_lookup (ps : ParamsStore) : List (String × List (String × List ParamKV)) :=
  (LoggedParams.export_to_dict ps).foldl
    (fun acc exp =>
      pinsert exp.experiment_id
        (exp.runs.foldl (fun acc2 run => pinsert run.run_id run.parameters acc2) []) acc)
    []

/-- `AutoLogger.export_logs_to_dict`: iterate the metrics export and join in
the params via `params_lookup.get(experiment_id, {}).get(run_id, [])`. -/
def export_logs_to_dict (ms : MetricsStore) (ps : ParamsStore) : List CombinedEntry :=
  (LoggedMetrics.export_to_dict ms).flatMap fun exp =>
    exp.runs.map fun run =>
      { experiment_id := exp.experiment_id
        run_id := run.run_id
        params := (plookup run.run_id
          ((plookup exp.experiment_id (params_lookup ps)).getD [])).getD []
        metrics := run.metrics }

/-- The ambient MLflow session state the code queries: the active run's
coordinates (`mlflow.active_run().info`), the current Unix time, and the
opaque `RunOperation` object the original `mlflow.log_metric` returns
(identified by a number). -/
structure Ctx where
  active_experiment_id : String
  active_run_id : String
  now : Int
  backendRunOp : Nat
deriving DecidableEq, Repr

/-- `LoggedMetric.__init__` with an active run: missing `experiment_id` and
`run_id` resolve from the active run, missing `timestamp` defaults to the
current Unix time, and `step` is stored as given (including `None`). -/
def LoggedMetric.init (ctx : Ctx) (key : String) (value : ℚ) (step : Option Int)
    (timestamp : Option Int) (run_id : Option String) (experiment_id : Option String) :
    LoggedMetric :=
  { key := key, value := value, step := step,
    timestamp := timestamp.getD ctx.now,
    run_id := run_id.getD ctx.active_run_id,
    experiment_id := experiment_id.getD ctx.active_experiment_id }

/-- `LoggedParam.__init__` with an active run: coordinates always taken from
the active run. -/
def LoggedParam.init (ctx : Ctx) (key : String) (value : ℚ) : LoggedParam :=
  { key := key, value := value,
    run_id := ctx.active_run_id,
    experiment_id := ctx.active_experiment_id }

/-- Observable actions of a logging call, in execution order. -/
inductive Event where
  | backendLogMetric (key : String) (value : ℚ) (step : Option Int)
      (synchronous : Option Bool) (timestamp : Option Int) (run_id : Option String)
  | storeAddMetric (m : LoggedMetric)
deriving DecidableEq, Repr

/-- Result of one `log_metric`-shaped call: the Python return value (`none`
models Python `None`, `some n` the backend `RunOperation`), the metric
store afterwards, and the trace of actions in order. -/
structure LogMetricOutcome where
  ret : Option Nat
  store : MetricsStore
  events : List Event
deriving DecidableEq, Repr

/-- `MLflowAutoLogger.log_metric` on the `mlflow_available` path: call the
original `mlflow.log_metric` first, then construct a `LoggedMetric` and add
it to the store, then return the original call's `RunOperation`. -/
def MLflowAutoLogger.log_metric (ctx : Ctx) (store : MetricsStore) (key : String) (value : ℚ)
    (step : Option Int) (synchronous : Option Bool) (timestamp : Option Int)
    (run_id : Option String) : LogMetricOutcome :=
  let m := LoggedMetric.init ctx key value step timestamp run_id none
  { ret := some ctx.backendRunOp
    store := add_metric m store
    events := [.backendLogMetric key value step synchronous timestamp run_id,
               .storeAddMetric m] }

/-- The installed replacement `mlflow_log_metric_wrapper` in the state where
the registry resolves the mlflow logger (it is only installed when mlflow is
available): it calls `logger.log_metric(...)` for its effects and falls off
the end of the function body, so the Python return value is `None`. -/
def mlflow_log_metric_wrapper (ctx : Ctx) (store : MetricsStore) (key : String) (value : ℚ)
    (step : Option Int) (synchronous : Option Bool) (timestamp : Option Int)
    (run_id : Option String) : LogMetricOutcome :=
  let o := MLflowAutoLogger.log_metric ctx store key value step synchronous timestamp run_id
  { o with ret := none }

/-- State of the `LoggerFactory` registry: registered loggers by name (each
logger object identified by an allocation number, so identity of instances
is comparable) and the next allocation number. -/
structure LoggerFactoryState where
  loggers : List (String × Nat)
  next_id : Nat
deriving DecidableEq, Repr

/-- Result of `LoggerFactory.get_logger`: the returned logger (or Python
`None`), any diagnostics printed, and the registry afterwards. -/
structure GetLoggerOutcome where
  ret : Option Nat
  diagnostics : List String
  state : LoggerFactoryState
deriving DecidableEq, Repr

/-- `LoggerFactory.get_logger(name)`: return the cached instance; otherwise
construct and register one if the named backend is available; otherwise
print a diagnostic and return `None` without caching anything. -/
def LoggerFactory.get_logger (mlflow_available wandb_available : Bool)
    (st : LoggerFactoryState) (name : String) : GetLoggerOutcome :=
  match plookup name st.loggers with
  | some l => { ret := some l, diagnostics := [], state := st }
  | none =>
    if name = "mlflow" ∧ mlflow_available then
      { ret := some st.next_id, diagnostics := []
        state := { loggers := pinsert name st.next_id st.loggers, next_id := st.next_id + 1 } }
    else if name = "wandb" ∧ wandb_available then
      { ret := some st.next_id, diagnostics := []
        state := { loggers := pinsert name st.next_id st.loggers, next_id := st.next_id + 1 } }
    else
      { ret := none
        diagnostics := ["[LoggerFactory] No available logger for " ++ name ++ "."]
        state := st }

/-- The file-system slice `export_logs_as_artifact` touches: local files
that exist, and the artifacts uploaded to the tracking backend so far. -/
structure ArtifactFS where
  files : List String
  artifacts : List String
deriving DecidableEq, Repr

/-- `MLflowAutoLogger.export_logs_as_artifact(base_path)`: build the target
path, raise if it already exists, otherwise write the active run's combined
export there, upload it via `mlflow.log_artifact`, and `os.remove` it.
`upload_raises` models whether the backend upload call raises; there is no
`try/finally` in the source, so a raising upload skips the removal. -/
def MLflowAutoLogger.export_logs_as_artifact (ctx : Ctx) (ms : MetricsStore) (ps : ParamsStore)
    (base_path : String) (fs : ArtifactFS) (upload_raises : Bool) :
    Except PyErr Unit × ArtifactFS :=
  let log_file_path :=
    base_path ++ "/" ++ ctx.active_experiment_id ++ "/" ++ ctx.active_run_id ++ "/results.json"
  if log_file_path ∈ fs.files then
    (.error (.exception ("Log file path already exists " ++ log_file_path)), fs)
  else
    let logs := export_logs_to_dict ms ps
    match logs.find? (fun l =>
        l.experiment_id == ctx.active_experiment_id && l.run_id == ctx.active_run_id) with
    | none => (.ok (), fs)
    | some _ =>
      let fs1 : ArtifactFS := { fs with files := fs.files ++ [log_file_path] }
      if upload_raises then
        (.error .uploadFailure, fs1)
      else
        (.ok (), { files := fs1.files.erase log_file_path
                   artifacts := fs1.artifacts ++ [log_file_path] })

/-- A four-tuple storage address `(experiment_id, run_id, key, step)`. -/
abbrev Addr := String × String × String × Option Int

/-- The address of a dataframe row. -/
def rowAddr (r : MetricRow) : Addr := (r.experiment_id, r.run_id, r.key, r.step)

/-- The leaf addresses of a metric store, in iteration order. -/
def storeAddrs (s : MetricsStore) : List Addr :=
  s.flatMap fun p => p.2.flatMap fun q => q.2.flatMap fun t => t.2.map fun u => (p.1, q.1, t.1, u.1)

/-- Spec-side notion for the refinement claim about the two export
projections: flatten the leaves of the nested document produced by
`export_to_dict` into `(experiment_id, run_id, key, step, value, timestamp)`
rows, in the document's traversal order. -/
def specFlattenLeaves (doc : List ExpEntry) : List MetricRow :=
  doc.flatMap fun e =>
    e.runs.flatMap fun r =>
      r.metrics.flatMap fun me =>
        me.steps.map fun se =>
          { experiment_id := e.experiment_id, run_id := r.run_id, key := me.key,
            step := se.step, value := se.value, timestamp := se.timestamp }

/-- Number of leaf records in a metric store. -/
def leafCount (s : MetricsStore) : Nat :=
  (s.map fun p => (p.2.map fun q => (q.2.map fun t => t.2.length).sum).sum).sum

/-- A dict with no two bindings for the same key (Python dicts always
satisfy this; association lists built by `pinsert` preserve it). -/
abbrev keysNodup {K V : Type} [DecidableEq K] (d : List (K × V)) : Prop :=
  (d.map Prod.fst).Nodup

/-- Every level of the nested store is a genuine dict. -/
abbrev StoreWF (s : MetricsStore) : Prop :=
  keysNodup s ∧ ∀ p ∈ s, keysNodup p.2 ∧ ∀ q ∈ p.2, keysNodup q.2 ∧ ∀ t ∈ q.2, keysNodup t.2

theorem keys_pairwise {K V : Type} [DecidableEq K] {d : List (K × V)}
    (h : keysNodup d) : d.Pairwise fun a b => a.1 ≠ b.1 :=
  List.pairwise_map.mp h

/-- Nodup lifts through a flat map whose blocks are tagged by their dict key. -/
theorem nodup_flatMap_tagged {A B K : Type} [DecidableEq K] (l : List (K × A))
    (f : K × A → List B) (tag : B → K)
    (hkeys : keysNodup l) (hin : ∀ p ∈ l, (f p).Nodup)
    (htag : ∀ p ∈ l, ∀ b ∈ f p, tag b = p.1) :
    (l.flatMap f).Nodup := by
  rw [List.nodup_flatMap]
  refine ⟨hin, ?_⟩
  have hp : l.Pairwise fun a b => a.1 ≠ b.1 := keys_pairwise hkeys
  refine List.Pairwise.imp_of_mem ?_ hp
  intro a b ha hb hne
  intro x hxa hxb
  exact hne ((htag a ha x hxa) ▸ (htag b hb x hxb) ▸ rfl)

theorem addr_nodup_stepdict (E R K : String) (sd : StepDict) (h : keysNodup sd) :
    (sd.map fun u => ((E, R, K, u.1) : Addr)).Nodup := by
  have hp : sd.Pairwise fun a b => a.1 ≠ b.1 := keys_pairwise h
  exact List.pairwise_map.mpr (hp.imp fun hne => by simpa using hne)

theorem storeAddrs_nodup (s : MetricsStore) (h : StoreWF s) : (storeAddrs s).Nodup := by
  unfold storeAddrs
  refine nodup_flatMap_tagged s _ (fun a => a.1) h.1 ?_ ?_
  · intro p hp
    refine nodup_flatMap_tagged p.2 _ (fun a => a.2.1) ((h.2 p hp).1) ?_ ?_
    · intro q hq
      refine nodup_flatMap_tagged q.2 _ (fun a => a.2.2.1) (((h.2 p hp).2 q hq).1) ?_ ?_
      · intro t ht
        exact addr_nodup_stepdict p.1 q.1 t.1 t.2 ((((h.2 p hp).2 q hq).2 t ht))
      · intro t ht b hb
        simp only [List.mem_map] at hb
        obtain ⟨u, _, rfl⟩ := hb
        rfl
    · intro q hq b hb
      simp only [List.mem_flatMap, List.mem_map] at hb
      obtain ⟨t, _, u, _, rfl⟩ := hb
      rfl
  · intro p hp b hb
    simp only [List.mem_flatMap, List.mem_map] at hb
    obtain ⟨q, _, t, _, u, _, rfl⟩ := hb
    rfl

/-! Concrete fixtures used by counterexamples and witnesses. -/

/-- The rational 0.95, given in normal form so that kernel evaluation
(`decide`) can compare it. -/
def q095 : ℚ := ⟨19, 20, by decide, by decide⟩

/-- The rational 0.01 in normal form. -/
def q001 : ℚ := ⟨1, 100, by decide, by decide⟩

/-- A concrete metric record at address `("e1", "r1", "acc", some 0)`. -/
def cAccMetric : LoggedMetric :=
  { key := "acc", value := q095, step := some 0, timestamp := 100,
    run_id := "r1", experiment_id := "e1" }

/-- A concrete one-record store. -/
def cStore1 : MetricsStore := add_metric cAccMetric []

/-- A second record at the same address as `cAccMetric`, different value. -/
def cAccMetric2 : LoggedMetric :=
  { key := "acc", value := 2, step := some 0, timestamp := 101,
    run_id := "r1", experiment_id := "e1" }

/-- A concrete parameter record. -/
def cParam : LoggedParam := { key := "lr", value := q001, run_id := "r1", experiment_id := "e1" }

/-- A concrete one-record parameter store. -/
def cPStore1 : ParamsStore := add_param cParam []

/-- A concrete session context: active experiment `e1`, active run `r1`,
clock 100, backend `RunOperation` identity 7. -/
def cCtx : Ctx := { active_experiment_id := "e1", active_run_id := "r1", now := 100, backendRunOp := 7 }

/-- Claim C1: after two `add_metric` calls at the same four-tuple address,
a `get_metrics` call at that address returns the second record, and the
first record is no longer retrievable there. -/
theorem overwrite_law (s : MetricsStore) (m1 m2 : LoggedMetric) (n : Int)
    (he : m2.experiment_id = m1.experiment_id) (hr : m2.run_id = m1.run_id)
    (hk : m2.key = m1.key) (hs2 : m2.step = m1.step) (hstep : m1.step = some n)
    (hE : m1.experiment_id ≠ "") (hR : m1.run_id ≠ "") (hK : m1.key ≠ "") :
    get_metrics (add_metric m2 (add_metric m1 s)) (some m1.experiment_id)
      (some m1.run_id) (some m1.key) (some n) = .single m2 ∧
    (m1 ≠ m2 → get_metrics (add_metric m2 (add_metric m1 s)) (some m1.experiment_id)
      (some m1.run_id) (some m1.key) (some n) ≠ .single m1) := by
  have h1 : get_metrics (add_metric m2 (add_metric m1 s)) (some m1.experiment_id)
      (some m1.run_id) (some m1.key) (some n) = .single m2 := by
    simp [get_metrics, add_metric, truthyLookup, he, hr, hk, hs2, hstep, hE, hR, hK]
  refine ⟨h1, fun hne => ?_⟩
  rw [h1]
  intro hcontra
  cases hcontra
  exact hne rfl

/-- Witness for `overwrite_law` at a concrete double write. -/
theorem overwrite_law_witness :
    get_metrics (add_metric cAccMetric2 (add_metric cAccMetric []))
      (some "e1") (some "r1") (some "acc") (some 0) = .single cAccMetric2 :=
  (overwrite_law [] cAccMetric cAccMetric2 0
    rfl rfl rfl rfl rfl (by decide) (by decide) (by decide)).1

/-- Claim C2: flattening the leaves of the nested document produced by
`export_to_dict` yields exactly the rows of `export_to_dataframe`, in the
same order, and the row count equals the number of distinct leaf addresses
of the store. -/
theorem export_projections_equivalent (s : MetricsStore) (hwf : StoreWF s) :
    specFlattenLeaves (LoggedMetrics.export_to_dict s) = LoggedMetrics.export_to_dataframe s ∧
    (LoggedMetrics.export_to_dataframe s).length = ((storeAddrs s).dedup).length := by
  have hflat : specFlattenLeaves (LoggedMetrics.export_to_dict s) =
      LoggedMetrics.export_to_dataframe s := by
    simp [specFlattenLeaves, LoggedMetrics.export_to_dict, LoggedMetrics.export_to_dataframe,
      List.flatMap_map, List.map_map, Function.comp_def]
  have haddr : (LoggedMetrics.export_to_dataframe s).map rowAddr = storeAddrs s := by
    simp [LoggedMetrics.export_to_dataframe, storeAddrs, rowAddr,
      List.map_flatMap, List.map_map, Function.comp_def]
  have hnodup : (storeAddrs s).Nodup := storeAddrs_nodup s hwf
  have hdedup : (storeAddrs s).dedup = storeAddrs s := List.dedup_eq_self.mpr hnodup
  refine ⟨hflat, ?_⟩
  rw [hdedup, ← haddr, List.length_map]

/-- Witness for `export_projections_equivalent` on a concrete store. -/
theorem export_projections_equivalent_witness :
    specFlattenLeaves (LoggedMetrics.export_to_dict cStore1) =
      LoggedMetrics.export_to_dataframe cStore1 ∧
    (LoggedMetrics.export_to_dataframe cStore1).length = ((storeAddrs cStore1).dedup).length :=
  export_projections_equivalent cStore1 (by decide)

/-- Claim C3 (evaluation at the failing inputs): `aggregate` iterates the
object `get_metrics` returns, so at an address holding exactly one record it
raises `TypeError` (a `LoggedMetric` is not iterable) instead of returning
the value; with an unknown method on an empty address it returns `None`
instead of raising; and with an absent experiment on a non-empty store it
raises `AttributeError` (iterating the outer dict yields key strings). The
method-token check is unreachable, so no call raises the unsupported-method
error. -/
theorem aggregate_broken_at_failing_inputs :
    aggregate cStore1 "e1" "r1" "acc" 0 "mean" = .error .typeError ∧
    aggregate cStore1 "e1" "r1" "acc" 99 "mean" = .ok none ∧
    aggregate cStore1 "e1" "r1" "acc" 99 "bogus" = .ok none ∧
    aggregate cStore1 "e2" "r1" "acc" 0 "mean" = .error .attributeError := by
  decide

/-- Claim C4 (counterexample): asking either store for a coordinate that is
absent at its level does not return `None`/empty — it falls through to the
enclosing mapping, here the entire store, exposing data of other
coordinates (`"e1"`), and likewise for the parameter store. -/
theorem get_absent_coordinate_counterexample :
    get_metrics cStore1 (some "e2") none none none = .fullStore cStore1 ∧
    cStore1 ≠ ([] : MetricsStore) ∧
    get_metrics cStore1 (some "e2") none none none ≠ .emptyList ∧
    get_params cPStore1 (some "e2") none none = .fullStore cPStore1 ∧
    cPStore1 ≠ ([] : ParamsStore) := by
  decide

/-- Claim C4 (amended): a `get` call never raises, but a supplied coordinate
that is absent (or untruthy) at its level makes the call return the
enclosing mapping — the whole store for an absent experiment, and so on down
the cascade — which may contain data of other coordinates; only an absent
`step` yields an empty result. -/
theorem get_falls_back_to_enclosing_level (s : MetricsStore) (ps : ParamsStore)
    (e r k : String) (st : Int) (ro ko : Option String) (so : Option Int) :
    (plookup e s = none → get_metrics s (some e) ro ko so = .fullStore s) ∧
    (∀ rd : RunDict, e ≠ "" → plookup e s = some rd → plookup r rd = none →
      get_metrics s (some e) (some r) ko so = .runs rd) ∧
    (∀ (rd : RunDict) (kd : KeyDict), e ≠ "" → plookup e s = some rd → r ≠ "" →
      plookup r rd = some kd → plookup k kd = none →
      get_metrics s (some e) (some r) (some k) so = .keys kd) ∧
    (∀ (rd : RunDict) (kd : KeyDict) (sd : StepDict), e ≠ "" → plookup e s = some rd →
      r ≠ "" → plookup r rd = some kd → k ≠ "" → plookup k kd = some sd →
      plookup (some st) sd = none →
      get_metrics s (some e) (some r) (some k) (some st) = .emptyList) ∧
    (plookup e ps = none → get_params ps (some e) ro ko = .fullStore ps) := by
  refine ⟨?_, ?_, ?_, ?_, ?_⟩
  · intro h
    simp [get_metrics, truthyLookup, h]
  · intro rd hE h hr
    simp [get_metrics, truthyLookup, hE, h, hr]
  · intro rd kd hE h hR hr hk
    simp [get_metrics, truthyLookup, hE, h, hR, hr, hk]
  · intro rd kd sd hE h hR hr hK hk hst
    simp [get_metrics, truthyLookup, hE, h, hR, hr, hK, hk, hst]
  · intro h
    simp [get_params, truthyLookup, h]

/-- Witness for `get_falls_back_to_enclosing_level` on concrete stores. -/
theorem get_falls_back_witness :
    get_metrics cStore1 (some "e2") none none none = .fullStore cStore1 ∧
    get_params cPStore1 (some "e2") none none = .fullStore cPStore1 :=
  ⟨(get_falls_back_to_enclosing_level cStore1 cPStore1 "e2" "r1" "acc" 0 none none none).1
      (by decide),
   (get_falls_back_to_enclosing_level cStore1 cPStore1 "e2" "r1" "acc" 0 none none
      none).2.2.2.2 (by decide)⟩

/-- Claim C5 (counterexample): the installed `mlflow_log_metric_wrapper`
does not hand the original backend call's result back to its caller — the
logger method returns the backend `RunOperation` (here object 7), but the
wrapper body discards it and returns Python `None`. -/
theorem wrapper_return_counterexample :
    (mlflow_log_metric_wrapper cCtx [] "acc" q095 none none none none).ret = none ∧
    (MLflowAutoLogger.log_metric cCtx [] "acc" q095 none none none none).ret = some 7 ∧
    (mlflow_log_metric_wrapper cCtx [] "acc" q095 none none none none).ret ≠
      (MLflowAutoLogger.log_metric cCtx [] "acc" q095 none none none none).ret := by
  decide

/-- Claim C5 (amended): the wrapper performs the original backend call
first, then records the same data into the logger's store (same effects and
event order as the logger's `log_metric`, which itself returns the original
call's result), but the wrapper returns `None` to the caller, discarding
the original result. -/
theorem wrapper_calls_through_then_records (ctx : Ctx) (store : MetricsStore) (key : String)
    (value : ℚ) (step : Option Int) (synchronous : Option Bool) (timestamp : Option Int)
    (run_id : Option String) :
    (mlflow_log_metric_wrapper ctx store key value step synchronous timestamp run_id).events =
      [.backendLogMetric key value step synchronous timestamp run_id,
       .storeAddMetric (LoggedMetric.init ctx key value step timestamp run_id none)] ∧
    (mlflow_log_metric_wrapper ctx store key value step synchronous timestamp run_id).store =
      add_metric (LoggedMetric.init ctx key value step timestamp run_id none) store ∧
    (mlflow_log_metric_wrapper ctx store key value step synchronous timestamp run_id).store =
      (MLflowAutoLogger.log_metric ctx store key value step synchronous timestamp run_id).store ∧
    (MLflowAutoLogger.log_metric ctx store key value step synchronous timestamp run_id).ret =
      some ctx.backendRunOp ∧
    (mlflow_log_metric_wrapper ctx store key value step synchronous timestamp run_id).ret =
      none := by
  refine ⟨rfl, rfl, rfl, rfl, rfl⟩

/-- The artifact path the concrete context writes to. -/
def cArtifactPath : String := "base/e1/r1/results.json"

/-- The empty file system. -/
def cFS0 : ArtifactFS := { files := [], artifacts := [] }

/-- Claim C6 (counterexample): calling `export_logs_as_artifact` twice for
the same active run with the same `base_path` does not fail — the first
call deletes the local `results.json` after uploading, so the second call
finds no existing file, succeeds, and uploads the artifact again. -/
theorem artifact_double_export_counterexample :
    (MLflowAutoLogger.export_logs_as_artifact cCtx cStore1 [] "base" cFS0 false).1 = .ok () ∧
    (MLflowAutoLogger.export_logs_as_artifact cCtx cStore1 [] "base"
      (MLflowAutoLogger.export_logs_as_artifact cCtx cStore1 [] "base" cFS0 false).2 false).1 =
      .ok () ∧
    (MLflowAutoLogger.export_logs_as_artifact cCtx cStore1 [] "base"
      (MLflowAutoLogger.export_logs_as_artifact cCtx cStore1 [] "base" cFS0 false).2
        false).2.artifacts = [cArtifactPath, cArtifactPath] := by
  decide

/-- Claim C6 (amended): when the target file does not exist a call (with a
succeeding upload) returns successfully and leaves the set of local files
unchanged, so an immediately repeated call for the same run and `base_path`
also succeeds instead of failing; the already-exists refusal is raised
exactly when the target path is still present at call time. -/
theorem artifact_export_repeat_succeeds (ctx : Ctx) (ms : MetricsStore) (ps : ParamsStore)
    (base_path : String) (fs : ArtifactFS)
    (hnot : (base_path ++ "/" ++ ctx.active_experiment_id ++ "/" ++ ctx.active_run_id ++
      "/results.json") ∉ fs.files) :
    (MLflowAutoLogger.export_logs_as_artifact ctx ms ps base_path fs false).1 = .ok () ∧
    (MLflowAutoLogger.export_logs_as_artifact ctx ms ps base_path fs false).2.files = fs.files ∧
    (MLflowAutoLogger.export_logs_as_artifact ctx ms ps base_path
      (MLflowAutoLogger.export_logs_as_artifact ctx ms ps base_path fs false).2 false).1 =
      .ok () ∧
    (∀ fs' : ArtifactFS,
      (base_path ++ "/" ++ ctx.active_experiment_id ++ "/" ++ ctx.active_run_id ++
        "/results.json") ∈ fs'.files →
      (MLflowAutoLogger.export_logs_as_artifact ctx ms ps base_path fs' false).1 =
        .error (.exception ("Log file path already exists " ++
          (base_path ++ "/" ++ ctx.active_experiment_id ++ "/" ++ ctx.active_run_id ++
            "/results.json")))) := by
  have hcore : ∀ g : ArtifactFS,
      (base_path ++ "/" ++ ctx.active_experiment_id ++ "/" ++ ctx.active_run_id ++
        "/results.json") ∉ g.files →
      (MLflowAutoLogger.export_logs_as_artifact ctx ms ps base_path g false).1 = .ok () ∧
      (MLflowAutoLogger.export_logs_as_artifact ctx ms ps base_path g false).2.files =
        g.files := by
    intro g hg
    unfold MLflowAutoLogger.export_logs_as_artifact
    simp only [hg, if_false, if_neg hg]
    cases hfind : (export_logs_to_dict ms ps).find? fun l =>
        l.experiment_id == ctx.active_experiment_id && l.run_id == ctx.active_run_id with
    | none => exact ⟨rfl, rfl⟩
    | some entry =>
      refine ⟨rfl, ?_⟩
      simp only
      rw [List.erase_append_right _ hg]
      simp
  obtain ⟨h1, h2⟩ := hcore fs hnot
  refine ⟨h1, h2, ?_, ?_⟩
  · exact (hcore _ (h2 ▸ hnot)).1
  · intro fs' hin
    unfold MLflowAutoLogger.export_logs_as_artifact
    simp [hin]

/-- Witness for `artifact_export_repeat_succeeds` on the concrete run. -/
theorem artifact_export_repeat_succeeds_witness :
    (MLflowAutoLogger.export_logs_as_artifact cCtx cStore1 [] "base" cFS0 false).1 = .ok () ∧
    (MLflowAutoLogger.export_logs_as_artifact cCtx cStore1 [] "base" cFS0 false).2.files =
      cFS0.files :=
  ⟨(artifact_export_repeat_succeeds cCtx cStore1 [] "base" cFS0 (by decide)).1,
   (artifact_export_repeat_succeeds cCtx cStore1 [] "base" cFS0 (by decide)).2.1⟩

/-- Claim C7 (counterexample): there is no `try/finally` around the upload,
so when `mlflow.log_artifact` raises, the freshly written local
`results.json` is not removed — the exception propagates and the file stays
behind. -/
theorem artifact_upload_failure_leaves_file :
    (MLflowAutoLogger.export_logs_as_artifact cCtx cStore1 [] "base" cFS0 true).1 =
      .error .uploadFailure ∧
    cArtifactPath ∈ (MLflowAutoLogger.export_logs_as_artifact cCtx cStore1 [] "base"
      cFS0 true).2.files := by
  decide

/-- Claim C7 (amended): the temporary file is removed before the operation
ends only when the backend upload succeeds; when the upload raises, the
exception propagates and the local file is left behind. -/
theorem artifact_cleanup_only_on_success (ctx : Ctx) (ms : MetricsStore) (ps : ParamsStore)
    (base_path : String) (fs : ArtifactFS)
    (hnot : (base_path ++ "/" ++ ctx.active_experiment_id ++ "/" ++ ctx.active_run_id ++
      "/results.json") ∉ fs.files) :
    (MLflowAutoLogger.export_logs_as_artifact ctx ms ps base_path fs false).2.files =
      fs.files ∧
    (∀ entry, ((export_logs_to_dict ms ps).find? fun l =>
        l.experiment_id == ctx.active_experiment_id && l.run_id == ctx.active_run_id) =
        some entry →
      (MLflowAutoLogger.export_logs_as_artifact ctx ms ps base_path fs true).1 =
        .error .uploadFailure ∧
      (base_path ++ "/" ++ ctx.active_experiment_id ++ "/" ++ ctx.active_run_id ++
        "/results.json") ∈
        (MLflowAutoLogger.export_logs_as_artifact ctx ms ps base_path fs true).2.files) := by
  constructor
  · unfold MLflowAutoLogger.export_logs_as_artifact
    simp only [hnot, if_false, if_neg hnot]
    cases hfind : (export_logs_to_dict ms ps).find? fun l =>
        l.experiment_id == ctx.active_experiment_id && l.run_id == ctx.active_run_id with
    | none => rfl
    | some entry =>
      simp only
      rw [List.erase_append_right _ hnot]
      simp
  · intro entry hfind
    unfold MLflowAutoLogger.export_logs_as_artifact
    simp [hnot, hfind]

/-- Witness for `artifact_cleanup_only_on_success` on the concrete run. -/
theorem artifact_cleanup_only_on_success_witness :
    (MLflowAutoLogger.export_logs_as_artifact cCtx cStore1 [] "base" cFS0 true).1 =
      .error .uploadFailure ∧
    cArtifactPath ∈ (MLflowAutoLogger.export_logs_as_artifact cCtx cStore1 [] "base"
      cFS0 true).2.files :=
  (artifact_cleanup_only_on_success cCtx cStore1 [] "base" cFS0 (by decide)).2
    ⟨"e1", "r1", [], [⟨"acc", [⟨some 0, q095, 100⟩]⟩]⟩ (by decide)

/-- Claim C8 (counterexample): logging `accuracy = 0.95` with no explicit
step under active run `r1` of experiment `e1` stores the record at step
`None`, not step 0: a lookup at `(e1, r1, "accuracy", 0)` finds nothing,
and the export document's single steps entry carries `step = None`. -/
theorem default_step_counterexample :
    (MLflowAutoLogger.log_metric cCtx [] "accuracy" q095 none none none none).store =
      [("e1", [("r1", [("accuracy",
        [(none, ⟨"accuracy", q095, none, 100, "r1", "e1"⟩)])])])] ∧
    get_metrics (MLflowAutoLogger.log_metric cCtx [] "accuracy" q095 none none none none).store
      (some "e1") (some "r1") (some "accuracy") (some 0) = .emptyList ∧
    LoggedMetrics.export_to_dict
        (MLflowAutoLogger.log_metric cCtx [] "accuracy" q095 none none none none).store =
      [⟨"e1", [⟨"r1", [⟨"accuracy", [⟨none, q095, 100⟩]⟩]⟩]⟩] := by
  decide

/-- Claim C8 (amended): logging a metric with no explicit step while a run
is active stores the record at step `None`: the store holds the record at
address `(active experiment, active run, key, None)` and `export_to_dict`
shows that key with a single steps entry whose `step` is `None`. -/
theorem log_metric_without_step_stores_none_step (ctx : Ctx) (key : String) (value : ℚ)
    (synchronous : Option Bool) :
    (MLflowAutoLogger.log_metric ctx [] key value none synchronous none none).store =
      [(ctx.active_experiment_id, [(ctx.active_run_id,
        [(key, [(none, LoggedMetric.init ctx key value none none none none)])])])] ∧
    LoggedMetrics.export_to_dict
        (MLflowAutoLogger.log_metric ctx [] key value none synchronous none none).store =
      [⟨ctx.active_experiment_id, [⟨ctx.active_run_id,
        [⟨key, [⟨none, value, ctx.now⟩]⟩]⟩]⟩] := by
  constructor
  · simp [MLflowAutoLogger.log_metric, add_metric, pinsert, LoggedMetric.init]
  · simp [MLflowAutoLogger.log_metric, add_metric, pinsert, LoggedMetric.init,
      LoggedMetrics.export_to_dict]

/-- Claim C9: for every registry state and name, two consecutive
`get_logger` calls return the same result — the identical cached instance
when one is (or becomes) registered; and when the named backend is
unavailable, the call prints a diagnostic and returns `None` instead of
raising. -/
theorem get_logger_cached_and_unavailable (mA wA : Bool) (st : LoggerFactoryState)
    (name : String) :
    (LoggerFactory.get_logger mA wA
        (LoggerFactory.get_logger mA wA st name).state name).ret =
      (LoggerFactory.get_logger mA wA st name).ret ∧
    (plookup name st.loggers = none → ¬(name = "mlflow" ∧ mA = true) →
      ¬(name = "wandb" ∧ wA = true) →
      (LoggerFactory.get_logger mA wA st name).ret = none ∧
      (LoggerFactory.get_logger mA wA st name).diagnostics ≠ []) := by
  constructor
  · cases h : plookup name st.loggers with
    | some l => simp [LoggerFactory.get_logger, h]
    | none =>
      by_cases hm : name = "mlflow" ∧ mA = true
      · obtain ⟨rfl, hm2⟩ := hm
        simp [LoggerFactory.get_logger, h, hm2]
      · by_cases hw : name = "wandb" ∧ wA = true
        · obtain ⟨rfl, hw2⟩ := hw
          simp [LoggerFactory.get_logger, h, hm, hw2]
        · simp [LoggerFactory.get_logger, h, hm, hw]
  · intro h hm hw
    simp [LoggerFactory.get_logger, h, hm, hw]

/-- Witness for `get_logger_cached_and_unavailable`: requesting the mlflow
logger when mlflow is unavailable yields `None` plus a diagnostic. -/
theorem get_logger_unavailable_witness :
    (LoggerFactory.get_logger false false { loggers := [], next_id := 0 } "mlflow").ret =
      none ∧
    (LoggerFactory.get_logger false false { loggers := [], next_id := 0 } "mlflow").diagnostics ≠
      [] :=
  (get_logger_cached_and_unavailable false false { loggers := [], next_id := 0 } "mlflow").2
    (by decide) (by decide) (by decide)

/-- The `(experiment_id, run_id)` pairs present in a metric store, in
iteration order. -/
def metricsRunPairs (ms : MetricsStore) : List (String × String) :=
  ms.flatMap fun p => p.2.map fun q => (p.1, q.1)

/-- Claim C10: `export_logs_to_dict` emits exactly one entry per
`(experiment_id, run_id)` pair of the metrics store (so a run recorded only
in the parameter store is absent), and an emitted run with no recorded
parameters carries an empty `params` list. -/
theorem export_logs_runs_follow_metrics (ms : MetricsStore) (ps : ParamsStore) :
    ((export_logs_to_dict ms ps).map fun c => (c.experiment_id, c.run_id)) =
      metricsRunPairs ms ∧
    (∀ c ∈ export_logs_to_dict ms ps, (c.experiment_id, c.run_id) ∈ metricsRunPairs ms) ∧
    (∀ c ∈ export_logs_to_dict ms ps,
      plookup c.run_id ((plookup c.experiment_id (params_lookup ps)).getD []) = none →
      c.params = []) := by
  have h1 : ((export_logs_to_dict ms ps).map fun c => (c.experiment_id, c.run_id)) =
      metricsRunPairs ms := by
    simp [export_logs_to_dict, metricsRunPairs, LoggedMetrics.export_to_dict,
      List.map_flatMap, List.map_map, List.flatMap_map, Function.comp_def]
  refine ⟨h1, ?_, ?_⟩
  · intro c hc
    rw [← h1]
    exact List.mem_map.mpr ⟨c, hc, rfl⟩
  · intro c hc hnone
    simp only [export_logs_to_dict, List.mem_flatMap, List.mem_map] at hc
    obtain ⟨exp, hexp, run, hrun, rfl⟩ := hc
    simp only at hnone ⊢
    simp [hnone]

/-- Witness for `export_logs_runs_follow_metrics`: the metric-only run
`("e1", "r1")` is emitted with an empty `params` list when the parameter
store is empty. -/
theorem export_logs_runs_follow_metrics_witness :
    ((export_logs_to_dict cStore1 []).map fun c => (c.experiment_id, c.run_id)) =
      metricsRunPairs cStore1 ∧
    (⟨"e1", "r1", [], [⟨"acc", [⟨some 0, q095, 100⟩]⟩]⟩ : CombinedEntry).params = [] :=
  ⟨(export_logs_runs_follow_metrics cStore1 []).1,
   (export_logs_runs_follow_metrics cStore1 []).2.2
     ⟨"e1", "r1", [], [⟨"acc", [⟨some 0, q095, 100⟩]⟩]⟩ (by decide) (by decide)⟩

end Fairops
